import Mathlib

/-
Verification of the ECS-150 FAT file system (src/libfs/fs.c) against its
natural-language specification.  The C code is shallowly embedded: each
fs_* function becomes a pure Lean function on an explicit state record,
machine integers become Nat (with the C int fields that matter embedded as
Int), and fallible device operations return Option.  The block-device layer
(disk.h / disk.c) and the constants of fs.h are not part of src/, so they
are modelled from the specification where noted.
-/

namespace FS150

/-- Modelled from the spec: block size of the external block device
(disk.h is not in src/); the spec fixes 4096-byte blocks. -/
def BLOCK_SIZE : Nat := 4096

/-- Modelled from the spec: maximum filename field length (fs.h is not in
src/); the spec fixes 16-byte, NUL-terminated name fields. -/
def FS_FILENAME_LEN : Nat := 16

/-- Modelled from the spec: number of root-directory entries (fs.h is not
in src/); the spec fixes 128 entries. -/
def FS_FILE_MAX_COUNT : Nat := 128

/-- Modelled from the spec: number of open-file-table slots (fs.h is not
in src/); the spec fixes 32 handles. -/
def FS_OPEN_MAX_COUNT : Nat := 32

/-- End-of-chain / sentinel FAT value 0xFFFF used throughout fs.c. -/
def FAT_EOC : Nat := 0xFFFF

/-- struct SuperBlock of fs.c (padding omitted); the u16/u8 fields are
embedded as Nat.  signature is the 8-byte field as a byte list. -/
structure SuperBlock where
  signature : List Nat
  total_blocks : Nat
  root_index : Nat
  data_index : Nat
  data_blocks : Nat
  fat_blocks : Nat
deriving DecidableEq

/-- The 8 bytes of the string ECS150FS compared by memcmp in fs_mount. -/
def ECS150FS_SIG : List Nat := [69, 67, 83, 49, 53, 48, 70, 83]

/-- struct Entry of fs.c (padding omitted): one root-directory slot.
filename is the full 16-byte field as a byte list. -/
structure Entry where
  filename : List Nat
  file_size : Nat
  data_index : Nat
deriving DecidableEq

/-- struct File of fs.c: one open-file-table slot (16-byte name field and
a byte offset). -/
structure File where
  filename : List Nat
  offset : Nat
deriving DecidableEq

/-- struct Files of fs.c: the open-file table plus the shared counter
files.open (a C int, hence Int here).  The C field is named open, a Lean
keyword, so it is rendered openCount. -/
structure Files where
  openCount : Int
  file : List File
deriving DecidableEq

/-- The process-wide globals of fs.c: super, fat.flat (as a list of u16
values), root.entry and files. -/
structure FSState where
  super : SuperBlock
  fat : List Nat
  root : List Entry
  files : Files
deriving DecidableEq

/-- A zeroed directory entry, as produced by memset in fs_delete and as a
free slot (filename[0] = 0). -/
def emptyEntry : Entry := { filename := List.replicate FS_FILENAME_LEN 0, file_size := 0, data_index := 0 }

/-- A zeroed open-file slot, as produced by memset in fs_close. -/
def emptyFile : File := { filename := List.replicate FS_FILENAME_LEN 0, offset := 0 }

/-- The 16-byte field that strncpy(dst, s, 16) leaves for a C string s of
length < 16: the bytes of s followed by zero padding.  The same padded
form is what memcmp(field, s, 16) compares against when the caller's
buffer is NUL-padded. -/
def padName (s : List Nat) : List Nat := s ++ List.replicate (FS_FILENAME_LEN - s.length) 0

/-- The C free-slot test filename[0] == 0 on a 16-byte name field. -/
def isFreeName (fn : List Nat) : Bool := fn.headD 1 = 0

/-- The entry-lookup loop shared by fs_write / fs_read / fs_stat: index of
the first root entry whose 16-byte name field memcmp-equals fn. -/
def findEntryIdx (root : List Entry) (fn : List Nat) : Option Nat :=
  root.findIdx? (fun e => e.filename = fn)

/-- fs_create of fs.c: length guard, files.open == 128 guard, duplicate
scan, first free directory slot, name/size initialisation, then the FAT
scan that marks the first free entry 0xFFFF and stores 0xFFFF in the
directory (leaving data_index stale if no free FAT entry exists), and the
unconditional files.open increment. -/
def fs_create (st : FSState) (filename : List Nat) : FSState × Int :=
  if FS_FILENAME_LEN ≤ filename.length then (st, -1)
  else if st.files.openCount = 128 then (st, -1)
  else if st.root.any (fun e => e.filename = padName filename) then (st, -1)
  else
    match st.root.findIdx? (fun e => isFreeName e.filename) with
    | none => (st, -1)
    | some i =>
      match (List.range st.super.data_blocks).find? (fun j => st.fat.getD j 1 = 0) with
      | none =>
        ({ st with
            root := st.root.set i
              { st.root.getD i emptyEntry with filename := padName filename, file_size := 0 },
            files := { st.files with openCount := st.files.openCount + 1 } }, 0)
      | some j =>
        ({ st with
            root := st.root.set i
              { filename := padName filename, file_size := 0, data_index := FAT_EOC },
            fat := st.fat.set j FAT_EOC,
            files := { st.files with openCount := st.files.openCount + 1 } }, 0)

/-- fs_delete of fs.c: at the first name match, if files.open == 0, write
0x0000 to fat.flat at the entry's data_index and zero the entry, else
fail.  The C FAT store has no bounds check; when data_index is outside the
FAT the C write is out of bounds (List.set is then the identity here, and
the companion fs_delete_fatWriteIndex surfaces the index actually used). -/
def fs_delete (st : FSState) (filename : List Nat) : FSState × Int :=
  match st.root.findIdx? (fun e => e.filename = padName filename) with
  | none => (st, -1)
  | some i =>
    if st.files.openCount = 0 then
      ({ st with
          fat := st.fat.set (st.root.getD i emptyEntry).data_index 0,
          root := st.root.set i emptyEntry }, 0)
    else (st, -1)

/-- The FAT index that fs_delete's store fat.flat[root.entry[i].data_index]
= 0x0000 uses when the delete branch executes (first matching entry found
and files.open == 0); none when that store is not reached. -/
def fs_delete_fatWriteIndex (st : FSState) (filename : List Nat) : Option Nat :=
  match st.root.findIdx? (fun e => e.filename = padName filename) with
  | none => none
  | some i =>
    if st.files.openCount = 0 then some (st.root.getD i emptyEntry).data_index
    else none

/-- fs_open of fs.c: files.open == 32 guard, NULL guard (none models the
NULL pointer), then at the first root match occupy the first free handle
slot with the padded name and offset 0, increment files.open and return
the literal 0. -/
def fs_open (st : FSState) (filename : Option (List Nat)) : FSState × Int :=
  if st.files.openCount = 32 then (st, -1)
  else
    match filename with
    | none => (st, -1)
    | some fn =>
      if st.root.any (fun e => e.filename = padName fn) then
        match st.files.file.findIdx? (fun f => isFreeName f.filename) with
        | none => (st, -1)
        | some j =>
          ({ st with files :=
              { openCount := st.files.openCount + 1,
                file := st.files.file.set j { filename := padName fn, offset := 0 } } }, 0)
      else (st, -1)

/-- fs_close of fs.c: range and free-slot guards, then zero the slot and
decrement files.open. -/
def fs_close (st : FSState) (fd : Int) : FSState × Int :=
  if fd < 0 ∨ 32 ≤ fd then (st, -1)
  else if isFreeName (st.files.file.getD fd.toNat emptyFile).filename then (st, -1)
  else
    ({ st with files :=
        { openCount := st.files.openCount - 1,
          file := st.files.file.set fd.toNat emptyFile } }, 0)

/-- fs_lseek of fs.c: range and free-slot guards, then the comparison
offset > root.entry[fd].file_size - the directory is indexed by the
descriptor fd, not by the handle's filename - and on success the handle
offset is set. -/
def fs_lseek (st : FSState) (fd : Int) (offset : Nat) : FSState × Int :=
  if fd < 0 ∨ 32 ≤ fd then (st, -1)
  else if isFreeName (st.files.file.getD fd.toNat emptyFile).filename then (st, -1)
  else if (st.root.getD fd.toNat emptyEntry).file_size < offset then (st, -1)
  else
    let f2 : File := { st.files.file.getD fd.toNat emptyFile with offset := offset }
    ({ st with files := { st.files with file := st.files.file.set fd.toNat f2 } }, 0)

/-- Modelled from the spec: the external block device of disk.h / disk.c
(not in src/): an addressable array of count fixed-size blocks, whose
read and write report ok or err.  A block is a byte list (conceptually
4096 bytes; shorter lists stand for blocks whose tail is irrelevant). -/
structure Disk where
  count : Nat
  data : Nat → List Nat

/-- Modelled from the spec: block_read - reading an index outside the
device's count of blocks fails, otherwise it delivers the block. -/
def block_read (d : Disk) (i : Nat) : Option (List Nat) :=
  if i < d.count then some (d.data i) else none

/-- Modelled from the spec: block_write - writing outside the device
fails, otherwise it replaces the block. -/
def block_write (d : Disk) (i : Nat) (b : List Nat) : Option Disk :=
  if i < d.count then some { count := d.count, data := fun j => if j = i then b else d.data j }
  else none

/-- The C memcpy(buffer + off, src, src.length) on a block image: the
bytes of dst before off, then src, then the rest of dst. -/
def memcpyAt (dst : List Nat) (off : Nat) (src : List Nat) : List Nat :=
  dst.take off ++ src ++ dst.drop (off + src.length)

/-- The while loop of fs_read.  Per iteration it reads the physical block
data_index + (entry.data_index + offset / BLOCK_SIZE), copies read_size =
min (BLOCK_SIZE - offset % BLOCK_SIZE) reading bytes from block offset
offset % BLOCK_SIZE, and advances.  Returns the bytes delivered, the final
offset and the final value of reading (0), or none when a block read
fails (the C returns -1 there).  fuel bounds the recursion; each
iteration consumes at least one byte, so fuel = reading (the value fs_read
passes) always suffices. -/
def readLoop (d : Disk) (dp ei : Nat) (offset reading fuel : Nat) :
    Option (List Nat × Nat × Nat) :=
  match fuel with
  | 0 => if reading = 0 then some ([], offset, reading) else none
  | fuel + 1 =>
    if reading = 0 then some ([], offset, reading)
    else
      match block_read d (dp + (ei + offset / BLOCK_SIZE)) with
      | none => none
      | some buffer =>
        match readLoop d dp ei (offset + min (BLOCK_SIZE - offset % BLOCK_SIZE) reading)
            (reading - min (BLOCK_SIZE - offset % BLOCK_SIZE) reading) fuel with
        | none => none
        | some (rest, off2, rem2) =>
          some ((buffer.drop (offset % BLOCK_SIZE)).take
                  (min (BLOCK_SIZE - offset % BLOCK_SIZE) reading) ++ rest, off2, rem2)

/-- fs_read of fs.c: descriptor guards, entry lookup by the handle's name,
return 0 when offset >= file_size, clamp reading to file_size - offset
when offset + count overshoots, run the loop, store the final offset in
the handle and return count - reading (reading is 0 after the loop).
Result: (new state, return value, bytes delivered). -/
def fs_read (st : FSState) (d : Disk) (fd : Int) (count : Nat) :
    FSState × Int × List Nat :=
  if fd < 0 ∨ 32 ≤ fd then (st, -1, [])
  else if isFreeName (st.files.file.getD fd.toNat emptyFile).filename then (st, -1, [])
  else
    match findEntryIdx st.root (st.files.file.getD fd.toNat emptyFile).filename with
    | none => (st, -1, [])
    | some i =>
      let entry := st.root.getD i emptyEntry
      let offset := (st.files.file.getD fd.toNat emptyFile).offset
      if entry.file_size ≤ offset then (st, 0, [])
      else
        let reading := if entry.file_size < offset + count then entry.file_size - offset else count
        match readLoop d st.super.data_index entry.data_index offset reading reading with
        | none => (st, -1, [])
        | some (out, off2, rem2) =>
          let f2 : File := { st.files.file.getD fd.toNat emptyFile with offset := off2 }
          ({ st with files := { st.files with file := st.files.file.set fd.toNat f2 } },
            (count : Int) - (rem2 : Int), out)

/-- The while loop of fs_write.  Per iteration it reads the physical block
data_index + (entry.data_index + offset / BLOCK_SIZE), overlays write_size
= min (BLOCK_SIZE - offset % BLOCK_SIZE) writing source bytes at offset
offset % BLOCK_SIZE, writes the block back and advances.  Returns the
disk after the writes performed so far together with some final offset on
completion, or none when a block read or write fails (the C returns -1
there, keeping the writes already issued).  fuel bounds the recursion;
each iteration consumes at least one byte, so fuel = count suffices. -/
def writeLoop (d : Disk) (dp ei : Nat) (buf : List Nat) (offset writing fuel : Nat) :
    Disk × Option Nat :=
  match fuel with
  | 0 => if writing = 0 then (d, some offset) else (d, none)
  | fuel + 1 =>
    if writing = 0 then (d, some offset)
    else
      match block_read d (dp + (ei + offset / BLOCK_SIZE)) with
      | none => (d, none)
      | some buffer =>
        match block_write d (dp + (ei + offset / BLOCK_SIZE))
            (memcpyAt buffer (offset % BLOCK_SIZE)
              (buf.take (min (BLOCK_SIZE - offset % BLOCK_SIZE) writing))) with
        | none => (d, none)
        | some d2 =>
          writeLoop d2 dp ei (buf.drop (min (BLOCK_SIZE - offset % BLOCK_SIZE) writing))
            (offset + min (BLOCK_SIZE - offset % BLOCK_SIZE) writing)
            (writing - min (BLOCK_SIZE - offset % BLOCK_SIZE) writing) fuel

/-- fs_write of fs.c: descriptor guards, entry lookup by the handle's
name, then the loop (no FAT access of any kind), then store the final
offset in the handle, raise file_size to the final offset when it grew,
and return count.  Result: (new state, new disk, return value). -/
def fs_write (st : FSState) (d : Disk) (fd : Int) (buf : List Nat) (count : Nat) :
    FSState × Disk × Int :=
  if fd < 0 ∨ 32 ≤ fd then (st, d, -1)
  else if isFreeName (st.files.file.getD fd.toNat emptyFile).filename then (st, d, -1)
  else
    match findEntryIdx st.root (st.files.file.getD fd.toNat emptyFile).filename with
    | none => (st, d, -1)
    | some i =>
      let entry := st.root.getD i emptyEntry
      let offset := (st.files.file.getD fd.toNat emptyFile).offset
      match writeLoop d st.super.data_index entry.data_index buf offset count count with
      | (d2, none) => (st, d2, -1)
      | (d2, some off2) =>
        let f2 : File := { st.files.file.getD fd.toNat emptyFile with offset := off2 }
        let e2 : Entry := { entry with file_size := if entry.file_size < off2 then off2 else entry.file_size }
        ({ st with root := st.root.set i e2,
                   files := { st.files with file := st.files.file.set fd.toNat f2 } },
          d2, (count : Int))

/-- Modelled from the spec: the mount-time view of the block device (disk.c
is not in src/).  The decoded content of block 0, of the FAT blocks (as
the little-endian u16 stream fatWords) and of the root block, together
with the success of opening the device, the block count, and the success
of each block_read fs_mount issues. -/
structure VDisk where
  okOpen : Bool
  count : Nat
  super : SuperBlock
  superReadOK : Bool
  fatWords : List Nat
  fatReadOK : Nat → Bool
  root : List Entry
  rootReadOK : Bool

/-- fs_mount of fs.c over the prior global state: the device-open guard;
the unchecked block_read(0, &super) - its failure is ignored, the prior
super survives; the five superblock validations (fat_min is computed in a
uint8_t, hence the % 256); the checked FAT-block reads (on the first
failure it returns -1 with the words copied so far; the malloc garbage
beyond them is modelled as absent); the fat.flat[0] == 0xFFFF check; and
the unchecked block_read(root_index, &root) - its failure is also
ignored.  Returns (new global state, return value). -/
def fs_mount (dsk : VDisk) (st : FSState) : FSState × Int :=
  if ¬ dsk.okOpen then (st, -1)
  else
    let sup := if dsk.superReadOK then dsk.super else st.super
    let st1 := { st with super := sup }
    let fat_min := ((sup.data_blocks * 2 + BLOCK_SIZE - 1) / BLOCK_SIZE) % 256
    if sup.signature ≠ ECS150FS_SIG then (st1, -1)
    else if (sup.fat_blocks : Int) + (sup.data_blocks : Int) ≠ (sup.total_blocks : Int) - 2 then (st1, -1)
    else if sup.total_blocks ≠ dsk.count then (st1, -1)
    else if sup.fat_blocks + 1 ≠ sup.root_index ∨ sup.root_index + 1 ≠ sup.data_index then (st1, -1)
    else if sup.fat_blocks ≠ fat_min then (st1, -1)
    else
      match (List.range sup.fat_blocks).find? (fun i => ¬ dsk.fatReadOK i) with
      | some i => ({ st1 with fat := dsk.fatWords.take (i * (BLOCK_SIZE / 2)) }, -1)
      | none =>
        let fatNew := dsk.fatWords.take sup.data_blocks
        if fatNew.headD 0 ≠ FAT_EOC then ({ st1 with fat := fatNew }, -1)
        else
          let rootNew := if dsk.rootReadOK then dsk.root else st.root
          ({ st1 with fat := fatNew, root := rootNew }, 0)

/-- The free-FAT-entry count as fs_info computes it: entries equal to 0
among indices 0 .. data_blocks. -/
def fat_free_count (st : FSState) : Nat :=
  (List.range st.super.data_blocks).countP (fun i => st.fat.getD i 1 = 0)

/-- specChainWalk: the chain-position-to-data-block mapping exactly as the
specification words it, for comparison with the code: chain-position p is
resolved by walking the FAT from first_data_index p hops forward, and the
walk stops at the 0xFFFF end-of-chain marker (none when the chain is
exhausted before position p). -/
def specChainWalk (fat : List Nat) (first p : Nat) : Option Nat :=
  match p with
  | 0 => if first = FAT_EOC then none else some first
  | q + 1 => if first = FAT_EOC then none else specChainWalk fat (fat.getD first FAT_EOC) q

/-- specChainLength: the length of a file's FAT chain as the
specification words it: starting from first_data_index, follow successor
entries until the 0xFFFF marker; 0xFFFF as first means an empty chain.
fuel bounds the walk (a valid volume terminates within data_blocks hops). -/
def specChainLength (fat : List Nat) (first fuel : Nat) : Nat :=
  match fuel with
  | 0 => 0
  | fuel + 1 =>
    if first = FAT_EOC then 0 else 1 + specChainLength fat (fat.getD first FAT_EOC) fuel

/-- A small valid volume used by the concrete runs: 10 blocks total, 1 FAT
block, root at 2, data at 3, 7 data blocks (the shape of scenario S1). -/
def superA : SuperBlock :=
  { signature := ECS150FS_SIG, total_blocks := 10, root_index := 2,
    data_index := 3, data_blocks := 7, fat_blocks := 1 }

/-- A freshly mounted empty volume: FAT sentinel at entry 0, empty root,
empty open-file table. -/
def st0A : FSState :=
  { super := superA, fat := [FAT_EOC, 0, 0, 0, 0, 0, 0],
    root := List.replicate FS_FILE_MAX_COUNT emptyEntry,
    files := { openCount := 0, file := List.replicate FS_OPEN_MAX_COUNT emptyFile } }

/-- C1 state: the empty file x as fs_create leaves it (file_size 0,
data_index 0xFFFF), opened on descriptor 0, on a volume whose FAT has
exactly two free entries. -/
def stC1 : FSState :=
  { super := superA, fat := [FAT_EOC, FAT_EOC, FAT_EOC, FAT_EOC, FAT_EOC, 0, 0],
    root := { filename := padName [120], file_size := 0, data_index := FAT_EOC }
              :: List.replicate 127 emptyEntry,
    files := { openCount := 1,
               file := { filename := padName [120], offset := 0 }
                         :: List.replicate 31 emptyFile } }

/-- C1 device: the 10 blocks of the volume, content irrelevant. -/
def diskC1 : Disk := { count := 10, data := fun _ => [] }

/-- C2 state: file f of size 8192 whose FAT chain is 1 -> 3 -> EOC (not
contiguous), opened on descriptor 0 with the handle offset already at
4096 (chain-position 1). -/
def stC2 : FSState :=
  { super := superA, fat := [FAT_EOC, 3, 0, FAT_EOC, 0, 0, 0],
    root := { filename := padName [102], file_size := 8192, data_index := 1 }
              :: List.replicate 127 emptyEntry,
    files := { openCount := 1,
               file := { filename := padName [102], offset := 4096 }
                         :: List.replicate 31 emptyFile } }

/-- C2 device: physical block 5 (= data_index + 2) holds byte 66, physical
block 6 (= data_index + 3, the chain's block for position 1) holds 67. -/
def diskC2 : Disk :=
  { count := 10, data := fun i => if i = 5 then [66] else if i = 6 then [67] else [] }

/-- C3 state: file c of size 5 starting at data block 1, opened on
descriptor 0 at offset 0. -/
def stC3 : FSState :=
  { super := superA, fat := [FAT_EOC, FAT_EOC, 0, 0, 0, 0, 0],
    root := { filename := padName [99], file_size := 5, data_index := 1 }
              :: List.replicate 127 emptyEntry,
    files := { openCount := 1,
               file := { filename := padName [99], offset := 0 }
                         :: List.replicate 31 emptyFile } }

/-- C3 device: physical block 4 (= data_index + 1) holds the five file
bytes 10..14. -/
def diskC3 : Disk :=
  { count := 10, data := fun i => if i = 4 then [10, 11, 12, 13, 14] else [] }

/-- C4 state: file y of size 8192 with FAT chain 1 -> 3 -> EOC (length 2),
no file open, so fs_delete takes its delete branch. -/
def stC4 : FSState :=
  { super := superA, fat := [FAT_EOC, 3, 0, FAT_EOC, 0, 0, 0],
    root := { filename := padName [121], file_size := 8192, data_index := 1 }
              :: List.replicate 127 emptyEntry,
    files := { openCount := 0, file := List.replicate 32 emptyFile } }

/-- C5 run, step 1: create x on the fresh volume. -/
def st1C5 : FSState := (fs_create st0A [120]).1

/-- C5 run, step 2: open x. -/
def st2C5 : FSState := (fs_open st1C5 (some [120])).1

/-- C5 run, step 3: close descriptor 0 - every handle slot is free again. -/
def st3C5 : FSState := (fs_close st2C5 0).1

/-- C6 state: volume with the single empty file f and no open handle. -/
def stC6 : FSState :=
  { super := superA, fat := [FAT_EOC, FAT_EOC, 0, 0, 0, 0, 0],
    root := { filename := padName [102], file_size := 0, data_index := FAT_EOC }
              :: List.replicate 127 emptyEntry,
    files := { openCount := 0, file := List.replicate 32 emptyFile } }

/-- C6 run: the state after the first open of f (slot 0 occupied). -/
def st1C6 : FSState := (fs_open stC6 (some [102])).1

/-- C7 state: directory entry 0 is file a with size 0, entry 1 is file b
with size 10; descriptor 0 is a handle on b. -/
def stC7 : FSState :=
  { super := superA, fat := [FAT_EOC, FAT_EOC, 0, 0, 0, 0, 0],
    root := { filename := padName [97], file_size := 0, data_index := FAT_EOC }
              :: { filename := padName [98], file_size := 10, data_index := 1 }
              :: List.replicate 126 emptyEntry,
    files := { openCount := 1,
               file := { filename := padName [98], offset := 0 }
                         :: List.replicate 31 emptyFile } }

/-- C8 device: a fully valid volume image on which every validation
passes and every FAT read succeeds, but the block_read of the
root-directory block fails. -/
def vdC8 : VDisk :=
  { okOpen := true, count := 10, super := superA, superReadOK := true,
    fatWords := [FAT_EOC, 0, 0, 0, 0, 0, 0], fatReadOK := fun _ => true,
    root := List.replicate FS_FILE_MAX_COUNT emptyEntry, rootReadOK := false }

/-- C8 prior global state: zeroed superblock, empty FAT image, zeroed
root, empty open-file table - the process state before any mount. -/
def st0C8 : FSState :=
  { super := { signature := List.replicate 8 0, total_blocks := 0, root_index := 0,
               data_index := 0, data_blocks := 0, fat_blocks := 0 },
    fat := [],
    root := List.replicate FS_FILE_MAX_COUNT emptyEntry,
    files := { openCount := 0, file := List.replicate FS_OPEN_MAX_COUNT emptyFile } }

/-- C9 witness state: the fresh volume of st0A under its C9 name. -/
def st0C9 : FSState := st0A

/-- C9 witness: the state after a successful create of x. -/
def st1C9 : FSState := (fs_create st0C9 [120]).1

/-- C9 witness state with the shared counter files.open at 128. -/
def st128C9 : FSState :=
  { st0C9 with files := { openCount := 128, file := List.replicate 32 emptyFile } }

/-- C10 state: a mounted volume (7 data blocks) whose root holds the empty
file x exactly as fs_create persists it - file_size 0, first_data_index
0xFFFF - with no file open, as after a fresh mount of that image. -/
def stC10 : FSState :=
  { super := superA, fat := [FAT_EOC, 0, 0, 0, 0, 0, 0],
    root := { filename := padName [120], file_size := 0, data_index := FAT_EOC }
              :: List.replicate 127 emptyEntry,
    files := { openCount := 0, file := List.replicate 32 emptyFile } }

/-- C1: the claim says fs_write allocates a data block from the FAT when
the chain position has no block and, with exactly 2 free data blocks,
writing 10000 bytes returns 8192 with file_size 8192.  On the code, with
the empty file x (first_data_index 0xFFFF) open on fd 0 and exactly two
free FAT entries, fs_write performs no allocation at all: it addresses
physical block data_index + 0xFFFF + 0, the block read fails, the call
returns -1, and the state - FAT included - is unchanged with file_size
still 0. -/
theorem fs_write_s4_divergence :
    fat_free_count stC1 = 2 ∧
    (fs_write stC1 diskC1 0 (List.replicate 10000 7) 10000).2.2 = -1 ∧
    (fs_write stC1 diskC1 0 (List.replicate 10000 7) 10000).1 = stC1 ∧
    ((fs_write stC1 diskC1 0 (List.replicate 10000 7) 10000).1.root.getD 0 emptyEntry).file_size = 0 := by
  decide

/-- C2: the claim says the block for chain-position p is found by walking
the FAT p hops from first_data_index, not by first_data_index + p.  On the
code, for file f with chain 1 -> 3 -> EOC and a 1-byte read at offset 4096
(chain-position 1), fs_read delivers byte 66 - the content of physical
block data_index + 1 + 1 = 5 - whereas the FAT walk of the specification
reaches data block 3, whose physical block data_index + 3 holds byte 67. -/
theorem fs_read_ignores_fat_chain :
    (fs_read stC2 diskC2 0 1).2.2 = [66] ∧
    specChainWalk stC2.fat 1 1 = some 3 ∧
    (diskC2.data (stC2.super.data_index + 2)).headD 0 = 66 ∧
    (diskC2.data (stC2.super.data_index + 3)).headD 0 = 67 := by
  decide

/-- C3: the claim says fs_read returns the number of bytes delivered,
min(count, file_size - offset).  On the code, reading 100 bytes of the
5-byte file c from offset 0 delivers the 5 file bytes but returns
count - reading = 100 - 0 = 100, exceeding the effective count 5. -/
theorem fs_read_returns_count_divergence :
    (fs_read stC3 diskC3 0 100).2.1 = 100 ∧
    (fs_read stC3 diskC3 0 100).2.2 = [10, 11, 12, 13, 14] ∧
    min 100 ((stC3.root.getD 0 emptyEntry).file_size -
      (stC3.files.file.getD 0 emptyFile).offset) = 5 := by
  decide

/-- C4: the claim says fs_delete walks the whole FAT chain, freeing one
entry per chain element.  On the code, deleting file y whose chain is
1 -> 3 -> EOC (length 2) sets only fat[first_data_index] to 0: the free
count rises by exactly 1 and fat[3] still holds 0xFFFF after the
successful delete. -/
theorem fs_delete_frees_single_entry :
    (fs_delete stC4 [121]).2 = 0 ∧
    specChainLength stC4.fat 1 8 = 2 ∧
    fat_free_count (fs_delete stC4 [121]).1 = fat_free_count stC4 + 1 ∧
    (fs_delete stC4 [121]).1.fat.getD 3 0 = FAT_EOC := by
  decide

/-- C5: the claim says that after create(x), open(x) -> fd, close(fd),
delete(x) succeeds.  On the code, fs_create itself incremented files.open,
so after the close - with every handle slot free again and files.open = 1
- fs_delete still returns -1.  (The first delete, while the handle was
open, fails as the claim expects.) -/
theorem fs_delete_after_close_divergence :
    (fs_create st0A [120]).2 = 0 ∧
    (fs_open st1C5 (some [120])).2 = 0 ∧
    (fs_delete st2C5 [120]).2 = -1 ∧
    (fs_close st2C5 0).2 = 0 ∧
    st3C5.files.file = List.replicate 32 emptyFile ∧
    (fs_delete st3C5 [120]).2 = -1 := by
  decide

/-- C6: the claim says a successful fs_open returns the index of the slot
it occupies, so two successive opens return distinct descriptors.  On the
code, fs_open always returns the literal 0: the second open of f occupies
slot 1 (slot 1 was free before it and holds the name f after it) yet also
returns 0 - the same descriptor as the first open. -/
theorem fs_open_returns_zero_divergence :
    (fs_open stC6 (some [102])).2 = 0 ∧
    isFreeName ((st1C6.files.file.getD 1 emptyFile).filename) = true ∧
    (fs_open st1C6 (some [102])).2 = 0 ∧
    ((fs_open st1C6 (some [102])).1.files.file.getD 1 emptyFile).filename = padName [102] := by
  decide

/-- C7: the claim says fs_lseek compares the offset against the file_size
of the directory entry whose name matches the handle's filename.  On the
code, with descriptor 0 open on file b - whose matching entry is at
directory index 1 with file_size 10 - fs_lseek(0, 5) compares against
root.entry[0].file_size = 0 (the entry of file a, indexed by the
descriptor) and fails, although 5 is within b's size. -/
theorem fs_lseek_indexes_by_fd_divergence :
    (fs_lseek stC7 0 5).2 = -1 ∧
    findEntryIdx stC7.root (stC7.files.file.getD 0 emptyFile).filename = some 1 ∧
    (stC7.root.getD 1 emptyEntry).file_size = 10 := by
  decide

/-- C8: the claim says fs_mount fails on any failed block read, including
the read of the root-directory block.  On the code, with a fully valid
volume whose root-block read fails, fs_mount ignores the unchecked return
value of that block_read and returns 0, leaving the prior (zeroed) root
image in place. -/
theorem fs_mount_ignores_root_read_failure :
    vdC8.rootReadOK = false ∧
    (fs_mount vdC8 st0C8).2 = 0 ∧
    (fs_mount vdC8 st0C8).1.root = st0C8.root := by
  decide

/-- Helper for C9: whenever the shared counter files.open is nonzero,
fs_delete fails for every filename - either no entry matches, or the
files.open == 0 test at the first match fails. -/
theorem fs_delete_fails_of_openCount (st : FSState) (g : List Nat)
    (h : st.files.openCount ≠ 0) : (fs_delete st g).2 = -1 := by
  unfold fs_delete
  cases hf : st.root.findIdx? (fun e => e.filename = padName g) with
  | none => simp only [hf]
  | some i =>
    simp only [hf]
    rw [if_neg h]

/-- C9: every successful fs_create increments the shared counter
files.open and leaves the open-file table untouched (no handle is
created); consequently fs_delete then fails for every filename even
though no descriptor is open; and fs_create fails whenever the counter
has reached 128. -/
theorem fs_create_counter_semantics :
    (∀ st fn st2, 0 ≤ st.files.openCount → fs_create st fn = (st2, 0) →
      st2.files.openCount = st.files.openCount + 1 ∧
      st2.files.file = st.files.file ∧
      (∀ g, (fs_delete st2 g).2 = -1)) ∧
    (∀ st fn, st.files.openCount = 128 → (fs_create st fn).2 = -1) := by
  constructor
  · intro st fn st2 h0 h
    have hne : st.files.openCount + 1 ≠ 0 := by omega
    unfold fs_create at h
    split at h
    · simp at h
    split at h
    · simp at h
    split at h
    · simp at h
    split at h
    · simp at h
    split at h
    · injection h with h1 h2
      subst h1
      exact ⟨rfl, rfl, fun g => fs_delete_fails_of_openCount _ g hne⟩
    · injection h with h1 h2
      subst h1
      exact ⟨rfl, rfl, fun g => fs_delete_fails_of_openCount _ g hne⟩
  · intro st fn h128
    unfold fs_create
    rw [h128]
    split
    · rfl
    · rfl

/-- C9 witness: on the fresh volume, create(x) yields the concrete state
st1C9 with the counter at 1 and delete failing for an arbitrary name, and
create fails on the state whose counter is 128. -/
theorem fs_create_counter_semantics_witness :
    st1C9.files.openCount = st0C9.files.openCount + 1 ∧
    (fs_delete st1C9 [119]).2 = -1 ∧
    (fs_create st128C9 [121]).2 = -1 :=
  ⟨(fs_create_counter_semantics.1 st0C9 [120] st1C9 (by decide) (by decide)).1,
   (fs_create_counter_semantics.1 st0C9 [120] st1C9 (by decide) (by decide)).2.2 [119],
   fs_create_counter_semantics.2 st128C9 [121] (by decide)⟩

/-- C10: the claim says the FAT index fs_delete writes always lies within
[0, data_blocks), and in particular that deleting an empty file whose
first_data_index is the 0xFFFF sentinel does not index the FAT at 0xFFFF.
On the code, deleting the empty file x (as fs_create persists it) on a
7-data-block volume with no file open succeeds and its unguarded FAT
store uses index 0xFFFF = 65535, far outside the 7-entry FAT - an
out-of-bounds write in the C. -/
theorem fs_delete_oob_fat_index :
    (fs_delete stC10 [120]).2 = 0 ∧
    fs_delete_fatWriteIndex stC10 [120] = some 65535 ∧
    stC10.super.data_blocks = 7 ∧
    stC10.fat.length = 7 ∧
    ¬ (65535 < stC10.super.data_blocks) := by
  decide

end FS150
